import Mathlib

/-!
Shallow embedding of the ZeroGuard configuration-scanner frontend
(React client). Pure rendering/aggregation helpers become Lean
functions; the stateful upload controller becomes explicit state
passing; absent JS object fields become `Option`; JS truthiness on
strings (`undefined`/`""` are falsy) is modelled explicitly.
-/

namespace ZeroGuard

/-- JS `a || b` on a possibly-absent string operand: `undefined` and the
empty string are falsy and fall through to `b`. -/
def jsOrStr (a : Option String) (b : String) : String :=
  match a with
  | none => b
  | some s => if s = "" then b else s

/-- JS `a || b` where both operands are possibly-absent strings. -/
def jsOrOpt (a b : Option String) : Option String :=
  match a with
  | none => b
  | some s => if s = "" then b else some s

/-- JS truthiness of a possibly-absent string. -/
def strTruthy (a : Option String) : Bool :=
  match a with
  | none => false
  | some s => !(s == "")

/-- One finding returned by the scanner. All issue categories
(`syntax_errors`, `security_issues`, `logic_conflicts`,
`secrets_detected`, `best_practices`) share this duck-typed record
shape in the JS client; every field may be absent. -/
structure Issue where
  message : Option String
  description : Option String
  file : Option String
  severity : Option String
  line : Option Int
  service : Option String
  type : Option String
  recommendation : Option String
  confidence : Option Int
  category : Option String
  secret_type : Option String
  ai_confirmed : Option Bool
  deriving Repr, DecidableEq

/-- An issue record with every field absent, used to build concrete
fixtures concisely. -/
def Issue.empty : Issue :=
  ⟨none, none, none, none, none, none, none, none, none, none, none, none⟩

/-- A suggested fix entry of the scan result. -/
structure Fix where
  issue_type : Option String
  confidence : Option Int
  reason : Option String
  fix : Option String
  deriving Repr, DecidableEq

/-- The `risk_score` slice of the scan result consumed by the client. -/
structure RiskScore where
  overall : Option Int
  risk_level : Option String
  deriving Repr, DecidableEq

/-- The `issue_counts` slice of the scan result consumed by the client. -/
structure IssueCounts where
  total_issues : Option Int
  total_syntax_errors : Option Int
  total_security_issues : Option Int
  total_secrets : Option Int
  deriving Repr, DecidableEq

/-- The root scan-result document held by the view router. The four
issue arrays and `best_practices` are lists of duck-typed issue
records; an absent array is modelled as `[]` (the client reads every
array through `x || []`). -/
structure ScanResult where
  syntax_errors : List Issue
  security_issues : List Issue
  logic_conflicts : List Issue
  secrets_detected : List Issue
  best_practices : List Issue
  suggested_fixes : List Fix
  ai_explanation : Option String
  risk_score : Option RiskScore
  issue_counts : Option IssueCounts
  deriving Repr, DecidableEq

/-- Report component: `allIssues`, the concatenation of the four issue
arrays in the fixed display order. -/
def allIssues (sd : ScanResult) : List Issue :=
  sd.syntax_errors ++ sd.security_issues ++ sd.logic_conflicts ++ sd.secrets_detected

/-- Report component `filterIssues`: pass-through on `"all"`, otherwise
keep issues whose `severity` is strictly (`===`) the filter string. -/
def filterIssues (filter : String) (issues : List Issue) : List Issue :=
  if filter = "all" then issues
  else issues.filter (fun issue => issue.severity = some filter)

/-- JS `hay.includes(needle)` on lowercased character lists: the
lowercased needle is a contiguous infix of the lowercased haystack. -/
def lowerIncludes (hay needle : List Char) : Bool :=
  decide ((needle.map Char.toLower) <:+: (hay.map Char.toLower))

/-- One disjunct of the Report `searchIssues` predicate:
`field && field.toLowerCase().includes(term.toLowerCase())`. -/
def fieldMatches (field : Option String) (term : String) : Bool :=
  match field with
  | none => false
  | some v => if v = "" then false else lowerIncludes v.toList term.toList

/-- Report component `searchIssues`: empty term is a pass-through,
otherwise keep issues where the term matches `message`, `description`
or `file` case-insensitively. -/
def searchIssues (term : String) (issues : List Issue) : List Issue :=
  if term = "" then issues
  else issues.filter (fun issue =>
    fieldMatches issue.message term ||
    fieldMatches issue.description term ||
    fieldMatches issue.file term)

/-- Report component `filteredIssues`: search applied to the output of
the severity filter over `allIssues`. -/
def reportFilteredIssues (sd : ScanResult) (filter term : String) : List Issue :=
  searchIssues term (filterIssues filter (allIssues sd))

/-- One uploaded file held in a slot of the Upload component's `files`
state: the raw handle plus the text content read by the FileReader. -/
structure HeldFile where
  name : String
  content : String
  deriving Repr, DecidableEq

/-- The Upload component's `files` object: one optional entry per slot
key (`dockerfile`, `docker_compose`, `env_file`). -/
structure FilesState where
  dockerfile : Option HeldFile
  docker_compose : Option HeldFile
  env_file : Option HeldFile
  deriving Repr, DecidableEq

/-- JS `Object.keys(files).length`: the number of held slots. -/
def FilesState.count (f : FilesState) : Nat :=
  (if f.dockerfile.isSome then 1 else 0) +
    (if f.docker_compose.isSome then 1 else 0) +
    (if f.env_file.isSome then 1 else 0)

/-- The cross-view application state relevant to the scan flow: the
Upload component's local `files`, `error` and `mode` state together
with the App-level `scanData`, `isScanning` and `activeTab` state that
the Upload component receives as setters. -/
structure AppState where
  files : FilesState
  error : String
  mode : String
  isScanning : Bool
  scanData : Option ScanResult
  activeTab : String
  deriving Repr, DecidableEq

/-- The `disabled` condition of the Start Analysis button: it is
disabled exactly when zero file slots are held (`Object.keys(files)
.length === 0`); it does not consult `isScanning`. -/
def startAnalysisDisabled (s : AppState) : Bool :=
  s.files.count == 0

/-- The Upload component's `handleScan`, run to completion against a
given outcome of the `/scan` call. Returns the resulting state plus a
flag recording whether a network request was issued. With zero held
files it sets the validation error and returns before any request;
otherwise it sets `isScanning`, clears the error, issues the request,
applies the success or failure branch, and finally resets
`isScanning`. -/
def handleScan (s : AppState) (outcome : Except String ScanResult) :
    AppState × Bool :=
  if s.files.count = 0 then
    ({ s with error := "Please upload at least one configuration file" }, false)
  else
    match outcome with
    | Except.ok result =>
        ({ s with error := "", scanData := some result,
                  activeTab := "dashboard", isScanning := false }, true)
    | Except.error e =>
        ({ s with error := jsOrStr (some e) "Scan failed. Please try again.",
                  isScanning := false }, true)

/-- Pressing the Start Analysis button: a disabled button swallows the
click, an enabled one runs `handleScan`. -/
def clickStartAnalysis (s : AppState) (outcome : Except String ScanResult) :
    AppState × Bool :=
  if startAnalysisDisabled s then (s, false) else handleScan s outcome

/-- IssueSummary Quick Stats predicate:
`list.includes(issue.severity?.toLowerCase())`, i.e. the lowercased
severity is one of the given literals; an absent severity matches
nothing. -/
def sevIn (sevs : List String) (i : Issue) : Bool :=
  match i.severity with
  | none => false
  | some s => sevs.contains s.toLower

/-- The four issue arrays in the fixed order the IssueSummary component
builds its `categories` list (syntax, security, logic, secrets). -/
def issueCategories (sd : ScanResult) : List (List Issue) :=
  [sd.syntax_errors, sd.security_issues, sd.logic_conflicts, sd.secrets_detected]

/-- IssueSummary Quick Stats "Critical/High" tally: the reduce over the
four categories of the count of issues whose lowercased severity is in
`{critical, high, error}`. -/
def criticalHighCount (sd : ScanResult) : Nat :=
  (issueCategories sd).foldl
    (fun sum cat => sum + (cat.filter (sevIn ["critical", "high", "error"])).length) 0

/-- IssueSummary Quick Stats "Medium" tally: the reduce over the four
categories of the count of issues whose lowercased severity is in
`{medium, warning}`. -/
def mediumCount (sd : ScanResult) : Nat :=
  (issueCategories sd).foldl
    (fun sum cat => sum + (cat.filter (sevIn ["medium", "warning"])).length) 0

/-- BestPractices grouping key: `suggestion.category || 'general'`
(an absent or empty category falls back to `"general"`). -/
def effCategory (s : Issue) : String :=
  jsOrStr s.category "general"

/-- Push one suggestion onto the group object under key `c`,
exactly as `groups[category].push(...)` after `groups[category] = []`
behaves on a JS object: the value under an existing key is extended in
place (keys are unique by construction), a new key is appended in
insertion order. -/
def pushGroup (groups : List (String × List Issue)) (c : String) (s : Issue) :
    List (String × List Issue) :=
  match groups with
  | [] => [(c, [s])]
  | p :: tl => if p.1 = c then (p.1, p.2 ++ [s]) :: tl else p :: pushGroup tl c s

/-- BestPractices `groupedSuggestions`: the reduce building an object
from category key to the in-order list of suggestions under that key.
Modelled as an association list in key insertion order. -/
def groupedSuggestions (suggestions : List Issue) : List (String × List Issue) :=
  suggestions.foldl (fun gs s => pushGroup gs (effCategory s) s) []

/-- JS property read `groups[c]` on the grouped object: the list under
key `c` when the key exists. -/
def lookupGroup (groups : List (String × List Issue)) (c : String) :
    Option (List Issue) :=
  (groups.find? (fun p => p.1 == c)).map (fun p => p.2)

/-- The fixed preferred display order of best-practice categories. -/
def categoryOrder : List String :=
  ["security", "reliability", "optimization", "monitoring", "resource_management",
   "configuration", "consistency", "documentation", "organization", "general"]

/-- The categories the BestPractices component actually renders:
`categoryOrder.filter(category => groupedSuggestions[category])`. -/
def displayedCategories (suggestions : List Issue) : List String :=
  categoryOrder.filter (fun c => (lookupGroup (groupedSuggestions suggestions) c).isSome)

/-- Total number of suggestion items across all displayed groups. -/
def displayedTotal (suggestions : List Issue) : Nat :=
  (displayedCategories suggestions).foldl
    (fun sum c => sum + ((lookupGroup (groupedSuggestions suggestions) c).getD []).length) 0

/-- API client response interceptor on a failed call:
`error.response?.data?.detail || error.message || 'Request failed'`.
`detail` is the server-provided field of the non-2xx body (absent on
transport errors), `message` the transport error text. -/
def responseErrorMessage (detail message : Option String) : String :=
  jsOrStr detail (jsOrStr message "Request failed")

/-- The `configuration_context` object sent with an explain request. -/
structure ExplainContext where
  file : Option String
  line : Option Int
  service : Option String
  type : Option String
  deriving Repr, DecidableEq

/-- The JSON body the API client posts to `/explain`. -/
structure ExplainRequest where
  issue_description : Option String
  configuration_context : ExplainContext
  mode : String
  deriving Repr, DecidableEq

/-- API client `explainIssue(issueDescription, configurationContext,
mode = 'devops')`: builds the request body; an omitted `mode` argument
takes the default `"devops"`. -/
def explainIssue (desc : Option String) (ctx : ExplainContext)
    (mode : Option String) : ExplainRequest :=
  { issue_description := desc, configuration_context := ctx, mode := mode.getD "devops" }

/-- The context object both explain call sites build from an issue. -/
def issueContext (i : Issue) : ExplainContext :=
  { file := i.file, line := i.line, service := i.service, type := i.type }

/-- AIExplanation `handleExplainIssue` for a selected issue: calls
`explainIssue(selectedIssue.message || selectedIssue.description,
{...})` with the `mode` argument omitted. The `selectedMode` parameter
records the analysis mode chosen on the Upload view, which this
component never receives and hence cannot pass. -/
def aiExplanationRequest (selectedMode : String) (selectedIssue : Issue) :
    ExplainRequest :=
  let _ := selectedMode
  explainIssue (jsOrOpt selectedIssue.message selectedIssue.description)
    (issueContext selectedIssue) none

/-- AIAssistant issue pick: the first three issues of the concatenated
lists whose `severity` is literally `critical` or `high`. -/
def mostCritical (sd : ScanResult) : List Issue :=
  ((allIssues sd).filter (fun i =>
    i.severity = some "critical" || i.severity = some "high")).take 3

/-- AIAssistant `handleSendMessage` explain call for an issue-related
question: when some critical/high issue exists it calls `explainIssue`
on the first one with the `mode` argument omitted; otherwise no
explain request is issued. As above, `selectedMode` is the Upload-view
mode this component never receives. -/
def aiAssistantRequest (selectedMode : String) (sd : ScanResult) :
    Option ExplainRequest :=
  let _ := selectedMode
  match mostCritical sd with
  | [] => none
  | issue :: _ =>
      some (explainIssue (jsOrOpt issue.message issue.description)
        (issueContext issue) none)

/-- JSON documents, modelling the value layer of the browser's
`JSON.stringify`/`JSON.parse` pair: the exported report is specified
at this document level, the byte serialization being the platform's. -/
inductive Json where
  | null : Json
  | bool (b : Bool) : Json
  | num (n : Int) : Json
  | str (s : String) : Json
  | arr (items : List Json) : Json
  | obj (fields : List (String × Json)) : Json

/-- Property read on a JSON object. -/
def Json.getField (j : Json) (key : String) : Option Json :=
  match j with
  | .obj fields => (fields.find? (fun p => p.1 == key)).map (fun p => p.2)
  | _ => none

/-- Encode a possibly-absent string field (`undefined` serializes no
differently from `null` for the purposes of the exported document). -/
def encOptStr (o : Option String) : Json :=
  match o with
  | none => Json.null
  | some s => Json.str s

/-- Decode a possibly-absent string field. -/
def decOptStr (j : Json) : Option (Option String) :=
  match j with
  | Json.null => some none
  | Json.str s => some (some s)
  | _ => none

/-- Encode a possibly-absent integer field. -/
def encOptInt (o : Option Int) : Json :=
  match o with
  | none => Json.null
  | some n => Json.num n

/-- Decode a possibly-absent integer field. -/
def decOptInt (j : Json) : Option (Option Int) :=
  match j with
  | Json.null => some none
  | Json.num n => some (some n)
  | _ => none

/-- Encode a possibly-absent boolean field. -/
def encOptBool (o : Option Bool) : Json :=
  match o with
  | none => Json.null
  | some b => Json.bool b

/-- Decode a possibly-absent boolean field. -/
def decOptBool (j : Json) : Option (Option Bool) :=
  match j with
  | Json.null => some none
  | Json.bool b => some (some b)
  | _ => none

/-- Serialize an issue record to a JSON object. -/
def encodeIssue (i : Issue) : Json :=
  Json.obj
    [("message", encOptStr i.message),
     ("description", encOptStr i.description),
     ("file", encOptStr i.file),
     ("severity", encOptStr i.severity),
     ("line", encOptInt i.line),
     ("service", encOptStr i.service),
     ("type", encOptStr i.type),
     ("recommendation", encOptStr i.recommendation),
     ("confidence", encOptInt i.confidence),
     ("category", encOptStr i.category),
     ("secret_type", encOptStr i.secret_type),
     ("ai_confirmed", encOptBool i.ai_confirmed)]

/-- Parse an issue record back from a JSON object. -/
def decodeIssue (j : Json) : Option Issue := do
  let message ← decOptStr ((j.getField "message").getD Json.null)
  let description ← decOptStr ((j.getField "description").getD Json.null)
  let file ← decOptStr ((j.getField "file").getD Json.null)
  let severity ← decOptStr ((j.getField "severity").getD Json.null)
  let line ← decOptInt ((j.getField "line").getD Json.null)
  let service ← decOptStr ((j.getField "service").getD Json.null)
  let ty ← decOptStr ((j.getField "type").getD Json.null)
  let recommendation ← decOptStr ((j.getField "recommendation").getD Json.null)
  let confidence ← decOptInt ((j.getField "confidence").getD Json.null)
  let category ← decOptStr ((j.getField "category").getD Json.null)
  let secret_type ← decOptStr ((j.getField "secret_type").getD Json.null)
  let ai_confirmed ← decOptBool ((j.getField "ai_confirmed").getD Json.null)
  pure ⟨message, description, file, severity, line, service, ty,
    recommendation, confidence, category, secret_type, ai_confirmed⟩

/-- Serialize a suggested-fix record. -/
def encodeFix (f : Fix) : Json :=
  Json.obj
    [("issue_type", encOptStr f.issue_type),
     ("confidence", encOptInt f.confidence),
     ("reason", encOptStr f.reason),
     ("fix", encOptStr f.fix)]

/-- Parse a suggested-fix record. -/
def decodeFix (j : Json) : Option Fix := do
  let issue_type ← decOptStr ((j.getField "issue_type").getD Json.null)
  let confidence ← decOptInt ((j.getField "confidence").getD Json.null)
  let reason ← decOptStr ((j.getField "reason").getD Json.null)
  let fix ← decOptStr ((j.getField "fix").getD Json.null)
  pure ⟨issue_type, confidence, reason, fix⟩

/-- Serialize the risk-score slice. -/
def encodeRiskScore (r : RiskScore) : Json :=
  Json.obj
    [("overall", encOptInt r.overall),
     ("risk_level", encOptStr r.risk_level)]

/-- Parse the risk-score slice. -/
def decodeRiskScore (j : Json) : Option RiskScore := do
  let overall ← decOptInt ((j.getField "overall").getD Json.null)
  let risk_level ← decOptStr ((j.getField "risk_level").getD Json.null)
  pure ⟨overall, risk_level⟩

/-- Serialize the issue-counts slice. -/
def encodeIssueCounts (c : IssueCounts) : Json :=
  Json.obj
    [("total_issues", encOptInt c.total_issues),
     ("total_syntax_errors", encOptInt c.total_syntax_errors),
     ("total_security_issues", encOptInt c.total_security_issues),
     ("total_secrets", encOptInt c.total_secrets)]

/-- Parse the issue-counts slice. -/
def decodeIssueCounts (j : Json) : Option IssueCounts := do
  let total_issues ← decOptInt ((j.getField "total_issues").getD Json.null)
  let total_syntax_errors ← decOptInt ((j.getField "total_syntax_errors").getD Json.null)
  let total_security_issues ← decOptInt ((j.getField "total_security_issues").getD Json.null)
  let total_secrets ← decOptInt ((j.getField "total_secrets").getD Json.null)
  pure ⟨total_issues, total_syntax_errors, total_security_issues, total_secrets⟩

/-- Encode an optional nested record, `null` when absent. -/
def encOpt (enc : α → Json) (o : Option α) : Json :=
  match o with
  | none => Json.null
  | some x => enc x

/-- Decode an optional nested record. -/
def decOpt (dec : Json → Option α) (j : Json) : Option (Option α) :=
  match j with
  | Json.null => some none
  | j => (dec j).map some

/-- Serialize the whole scan-result document. -/
def encodeScanResult (sd : ScanResult) : Json :=
  Json.obj
    [("syntax_errors", Json.arr (sd.syntax_errors.map encodeIssue)),
     ("security_issues", Json.arr (sd.security_issues.map encodeIssue)),
     ("logic_conflicts", Json.arr (sd.logic_conflicts.map encodeIssue)),
     ("secrets_detected", Json.arr (sd.secrets_detected.map encodeIssue)),
     ("best_practices", Json.arr (sd.best_practices.map encodeIssue)),
     ("suggested_fixes", Json.arr (sd.suggested_fixes.map encodeFix)),
     ("ai_explanation", encOptStr sd.ai_explanation),
     ("risk_score", encOpt encodeRiskScore sd.risk_score),
     ("issue_counts", encOpt encodeIssueCounts sd.issue_counts)]

/-- Decode a JSON array of issues. -/
def decodeIssueList (j : Json) : Option (List Issue) :=
  match j with
  | Json.arr items => items.mapM decodeIssue
  | _ => none

/-- Decode a JSON array of suggested fixes. -/
def decodeFixList (j : Json) : Option (List Fix) :=
  match j with
  | Json.arr items => items.mapM decodeFix
  | _ => none

/-- Parse the whole scan-result document. -/
def decodeScanResult (j : Json) : Option ScanResult := do
  let syntax_errors ← decodeIssueList ((j.getField "syntax_errors").getD Json.null)
  let security_issues ← decodeIssueList ((j.getField "security_issues").getD Json.null)
  let logic_conflicts ← decodeIssueList ((j.getField "logic_conflicts").getD Json.null)
  let secrets_detected ← decodeIssueList ((j.getField "secrets_detected").getD Json.null)
  let best_practices ← decodeIssueList ((j.getField "best_practices").getD Json.null)
  let suggested_fixes ← decodeFixList ((j.getField "suggested_fixes").getD Json.null)
  let ai_explanation ← decOptStr ((j.getField "ai_explanation").getD Json.null)
  let risk_score ← decOpt decodeRiskScore ((j.getField "risk_score").getD Json.null)
  let issue_counts ← decOpt decodeIssueCounts ((j.getField "issue_counts").getD Json.null)
  pure ⟨syntax_errors, security_issues, logic_conflicts, secrets_detected,
    best_practices, suggested_fixes, ai_explanation, risk_score, issue_counts⟩

/-- Report `exportReport` date part: `toISOString().split('T')[0]`. -/
def isoDatePart (iso : String) : String :=
  (iso.splitOn "T").headD ""

/-- Report `exportReport`, given the active scan result and the current
time's ISO-8601 string: the downloaded JSON document
`{ timestamp, scan_data }` plus the download filename. -/
def exportReport (sd : ScanResult) (nowIso : String) : Json × String :=
  (Json.obj [("timestamp", Json.str nowIso), ("scan_data", encodeScanResult sd)],
   "zeroguard-report-" ++ isoDatePart nowIso ++ ".json")

/-- A scan result with every list empty and every optional slice
absent, used as a concrete fixture. -/
def emptyScanResult : ScanResult :=
  ⟨[], [], [], [], [], [], none, none, none⟩

/-- A concrete held Dockerfile. -/
def sampleHeld : HeldFile :=
  ⟨"Dockerfile", "FROM alpine"⟩

/-- Concrete state: one held file, a scan currently in flight. -/
def scanningState : AppState :=
  ⟨⟨some sampleHeld, none, none⟩, "", "devops", true, none, "upload"⟩

/-- Concrete state: one held file, no scan in flight. -/
def readyState : AppState :=
  ⟨⟨some sampleHeld, none, none⟩, "", "devops", false, none, "upload"⟩

/-- Concrete state: no file held. -/
def noFilesState : AppState :=
  ⟨⟨none, none, none⟩, "", "beginner", false, none, "upload"⟩

/-- A concrete critical security issue. -/
def critIssue : Issue :=
  { Issue.empty with
      message := some "Running as root",
      severity := some "critical",
      file := some "Dockerfile" }

/-- A concrete low-severity issue. -/
def lowIssue : Issue :=
  { Issue.empty with
      description := some "Pin the base image version",
      severity := some "low",
      file := some "docker-compose.yml" }

/-- A concrete issue whose severity is uppercased. -/
def upperIssue : Issue :=
  { Issue.empty with
      message := some "Privileged container",
      severity := some "HIGH" }

/-- A concrete best-practice suggestion with a category outside the
preferred display list. -/
def weirdIssue : Issue :=
  { Issue.empty with
      message := some "Use multi-stage builds",
      severity := some "low",
      category := some "weird" }

/-- A concrete mixed-severity issue list. -/
def mixedIssues : List Issue :=
  [critIssue, lowIssue, upperIssue]

/-- A concrete scan result holding one critical security issue. -/
def sampleScanWithCritical : ScanResult :=
  { emptyScanResult with security_issues := [critIssue] }

end ZeroGuard

namespace ZeroGuard

/-! Shared helper lemmas. -/

theorem jsOrStr_some_of_ne (s d : String) (h : s ≠ "") : jsOrStr (some s) d = s := by
  simp [jsOrStr, h]

/-! Claims about the scan trigger and `handleScan` (Upload controller). -/

/-- C1 counterexample: in a concrete state with one held file and a
scan already in flight (`isScanning = true`), the Start Analysis
trigger is not disabled and pressing it issues a second `/scan`
request, contradicting the claim that triggering during a scan is a
no-op with the request count staying at one. -/
theorem scanning_state_second_trigger_issues_request :
    scanningState.isScanning = true ∧
      startAnalysisDisabled scanningState = false ∧
      (clickStartAnalysis scanningState (Except.ok emptyScanResult)).2 = true := by
  refine ⟨rfl, by decide, by decide⟩

/-- C1 (amended): pressing the Start Analysis trigger issues a request
exactly when at least one file slot is held; the button's disabled
condition is `Object.keys(files).length === 0` and never consults
`isScanning`, so the trigger stays enabled during an in-flight scan. -/
theorem scan_trigger_request_iff_files_held (s : AppState)
    (o : Except String ScanResult) :
    (clickStartAnalysis s o).2 = !startAnalysisDisabled s ∧
      (startAnalysisDisabled s = true ↔ s.files.count = 0) := by
  constructor
  · by_cases h : startAnalysisDisabled s = true
    · simp [clickStartAnalysis, h]
    · have h' : startAnalysisDisabled s = false := by
        cases hb : startAnalysisDisabled s
        · rfl
        · exact absurd hb h
      have hc : s.files.count ≠ 0 := by
        intro hc
        rw [startAnalysisDisabled, hc] at h'
        simp at h'
      cases o with
      | ok r => simp [clickStartAnalysis, h', handleScan, hc]
      | error e => simp [clickStartAnalysis, h', handleScan, hc]
  · simp [startAnalysisDisabled]

/-- C3: with at least one held file, `handleScan` issues the request;
on success it stores the returned scan result and switches the active
view to the dashboard, on failure it surfaces the error message (the
thrown message, or a generic fallback when that message is empty) and
leaves the previously stored scan result unchanged, and in both cases
`isScanning` is `false` once the handler completes. -/
theorem handleScan_outcome_spec (s : AppState) (o : Except String ScanResult)
    (h : 0 < s.files.count) :
    (handleScan s o).2 = true ∧
      (handleScan s o).1.isScanning = false ∧
      (∀ r, o = Except.ok r →
        (handleScan s o).1.scanData = some r ∧
          (handleScan s o).1.activeTab = "dashboard") ∧
      (∀ e, o = Except.error e →
        (handleScan s o).1.scanData = s.scanData ∧
          (handleScan s o).1.error =
            (if e = "" then "Scan failed. Please try again." else e)) := by
  have hc : s.files.count ≠ 0 := Nat.pos_iff_ne_zero.mp h
  cases o with
  | ok r =>
      refine ⟨by simp [handleScan, hc], by simp [handleScan, hc], ?_, ?_⟩
      · intro r' hr
        cases hr
        simp [handleScan, hc]
      · intro e he
        cases he
  | error e =>
      refine ⟨by simp [handleScan, hc], by simp [handleScan, hc], ?_, ?_⟩
      · intro r' hr
        cases hr
      · intro e' he
        cases he
        simp [handleScan, hc, jsOrStr]

/-- C3 witness: the success and failure branches evaluated on a
concrete ready state. -/
theorem handleScan_outcome_spec_witness :
    (0 < readyState.files.count ∧
      (handleScan readyState (Except.ok sampleScanWithCritical)).1.scanData =
        some sampleScanWithCritical) ∧
      (handleScan readyState (Except.error "boom")).1.error = "boom" := by
  have hpos : 0 < readyState.files.count := by decide
  have hok := handleScan_outcome_spec readyState (Except.ok sampleScanWithCritical) hpos
  have herr := handleScan_outcome_spec readyState (Except.error "boom") hpos
  refine ⟨⟨hpos, (hok.2.2.1 sampleScanWithCritical rfl).1⟩, ?_⟩
  have h := (herr.2.2.2 "boom" rfl).2
  simpa using h

/-- C4: submitting a scan with zero held files only sets the
user-visible validation error `"Please upload at least one
configuration file"` and issues no network request; every other piece
of state (held files, stored scan result, `isScanning`, active tab) is
untouched. -/
theorem handleScan_zero_files_validation (s : AppState)
    (o : Except String ScanResult) (h : s.files.count = 0) :
    handleScan s o =
      ({ s with error := "Please upload at least one configuration file" }, false) := by
  simp [handleScan, h]

/-- C4 witness: the validation branch evaluated on a concrete state
with no held files. -/
theorem handleScan_zero_files_validation_witness :
    handleScan noFilesState (Except.ok emptyScanResult) =
      ({ noFilesState with
          error := "Please upload at least one configuration file" }, false) :=
  handleScan_zero_files_validation noFilesState (Except.ok emptyScanResult) (by decide)

/-! Claims about the API client error shape. -/

/-- C9 counterexample: when the server's non-2xx body carries a
`detail` field that is present but empty, the surfaced message is the
transport error text rather than the (empty) detail value, refuting
the claim that a present `detail` field is always surfaced. -/
theorem responseErrorMessage_empty_detail_counterexample :
    responseErrorMessage (some "") (some "Network Error") = "Network Error" ∧
      "Network Error" ≠ ("" : String) := by
  refine ⟨rfl, by decide⟩

/-- C9 (amended): the surfaced message is the server-provided `detail`
field when it is present and non-empty; otherwise the transport error
text when that is present and non-empty; otherwise the generic
`"Request failed"` fallback. -/
theorem responseErrorMessage_precedence (detail message : Option String) :
    (∀ d, detail = some d → d ≠ "" → responseErrorMessage detail message = d) ∧
      (strTruthy detail = false →
        ∀ m, message = some m → m ≠ "" → responseErrorMessage detail message = m) ∧
      (strTruthy detail = false → strTruthy message = false →
        responseErrorMessage detail message = "Request failed") := by
  refine ⟨?_, ?_, ?_⟩
  · intro d hd hne
    cases hd
    simp [responseErrorMessage, jsOrStr, hne]
  · intro hdf m hm hne
    cases hm
    cases detail with
    | none => simp [responseErrorMessage, jsOrStr, hne]
    | some d =>
        have hd : d = "" := by
          by_contra hcon
          simp [strTruthy, hcon] at hdf
        cases hd
        simp [responseErrorMessage, jsOrStr, hne]
  · intro hdf hmf
    cases detail with
    | none =>
        cases message with
        | none => rfl
        | some m =>
            have hm : m = "" := by
              by_contra hcon
              simp [strTruthy, hcon] at hmf
            cases hm
            rfl
    | some d =>
        have hd : d = "" := by
          by_contra hcon
          simp [strTruthy, hcon] at hdf
        cases hd
        cases message with
        | none => rfl
        | some m =>
            have hm : m = "" := by
              by_contra hcon
              simp [strTruthy, hcon] at hmf
            cases hm
            rfl

/-- C9 witness: the three precedence branches evaluated at concrete
detail and transport-message values. -/
theorem responseErrorMessage_precedence_witness :
    responseErrorMessage (some "File not found") (some "timeout") = "File not found" ∧
      responseErrorMessage none (some "timeout") = "timeout" ∧
      responseErrorMessage (some "") none = "Request failed" := by
  refine ⟨(responseErrorMessage_precedence (some "File not found") (some "timeout")).1
      "File not found" rfl (by decide),
    (responseErrorMessage_precedence none (some "timeout")).2.1 (by decide)
      "timeout" rfl (by decide),
    (responseErrorMessage_precedence (some "") none).2.2 (by decide) (by decide)⟩

/-! Claims about the explain call sites. -/

/-- C10: whatever analysis mode was selected on the Upload view, the
explain request built by the dashboard explanation view carries mode
`"devops"`, and any explain request the AI assistant issues carries
mode `"devops"`: both call sites omit the `mode` argument, so the API
client default applies. -/
theorem explain_requests_mode_devops (selectedMode : String) (i : Issue)
    (sd : ScanResult) :
    (aiExplanationRequest selectedMode i).mode = "devops" ∧
      (∀ r, aiAssistantRequest selectedMode sd = some r → r.mode = "devops") := by
  constructor
  · rfl
  · intro r hr
    rw [aiAssistantRequest] at hr
    cases hmc : mostCritical sd with
    | nil => rw [hmc] at hr; cases hr
    | cons issue rest =>
        rw [hmc] at hr
        cases hr
        rfl

/-! Claims about the IssueSummary Quick Stats tally. -/

/-- C5: the Quick Stats reduce over the four issue categories counts
into the "Critical/High" bucket exactly the issues whose severity
lowercases to `critical`, `high` or `error`, and into the "Medium"
bucket exactly those whose severity lowercases to `medium` or
`warning`; an issue with an absent or any other severity value
satisfies neither membership predicate and is counted in neither
bucket. -/
theorem quickStats_bucket_counts (sd : ScanResult) :
    criticalHighCount sd =
        ((allIssues sd).filter (sevIn ["critical", "high", "error"])).length ∧
      mediumCount sd =
        ((allIssues sd).filter (sevIn ["medium", "warning"])).length ∧
      (∀ i : Issue, sevIn ["critical", "high", "error"] i = true ↔
        ∃ s, i.severity = some s ∧
          (s.toLower = "critical" ∨ s.toLower = "high" ∨ s.toLower = "error")) ∧
      (∀ i : Issue, sevIn ["medium", "warning"] i = true ↔
        ∃ s, i.severity = some s ∧ (s.toLower = "medium" ∨ s.toLower = "warning")) := by
  refine ⟨?_, ?_, ?_, ?_⟩
  · simp [criticalHighCount, issueCategories, allIssues, List.filter_append]
    omega
  · simp [mediumCount, issueCategories, allIssues, List.filter_append]
    omega
  · intro i
    cases h : i.severity with
    | none => simp [sevIn, h]
    | some s => simp [sevIn, h, List.contains_cons, or_assoc]
  · intro i
    cases h : i.severity with
    | none => simp [sevIn, h]
    | some s => simp [sevIn, h, List.contains_cons]

/-! Claims about the Report filter and search pipeline. -/

/-- C6: `filterIssues` on `"all"` is the identity, and on each of the
four literal severity values it keeps exactly the issues whose
`severity` field strictly equals that value (case-sensitive string
equality, absent severity never matching). -/
theorem filterBySeverity_spec (l : List Issue) (s : String)
    (hs : s ∈ ["critical", "high", "medium", "low"]) :
    filterIssues "all" l = l ∧
      (filterIssues s l).Sublist l ∧
      ∀ i : Issue, i ∈ filterIssues s l ↔ i ∈ l ∧ i.severity = some s := by
  have hne : s ≠ "all" := by
    intro h
    subst h
    simp at hs
  refine ⟨rfl, ?_, ?_⟩
  · rw [filterIssues, if_neg hne]
    exact List.filter_sublist l
  · intro i
    rw [filterIssues, if_neg hne]
    simp [List.mem_filter]

/-- C6 witness: a mixed-severity fixture filtered at `"critical"`
keeps the critical issue, and `"all"` passes the fixture through. -/
theorem filterBySeverity_spec_witness :
    filterIssues "all" mixedIssues = mixedIssues ∧
      critIssue ∈ filterIssues "critical" mixedIssues := by
  have h := filterBySeverity_spec mixedIssues "critical" (by decide)
  exact ⟨h.1, (h.2.2 critIssue).mpr ⟨by decide, rfl⟩⟩

theorem toList_eq_nil_iff (s : String) : s.toList = [] ↔ s = "" := by
  rw [show ([] : List Char) = "".toList from rfl, String.toList_inj]

theorem fieldMatches_iff (f : Option String) (t : String) (ht : t ≠ "") :
    (fieldMatches f t = true ↔
      ∃ v, f = some v ∧
        (t.toList.map Char.toLower) <:+: (v.toList.map Char.toLower)) := by
  cases f with
  | none => simp [fieldMatches]
  | some v =>
      by_cases hv : v = ""
      · subst hv
        have htl : t.data ≠ [] := fun hc => ht ((toList_eq_nil_iff t).mp hc)
        simp [fieldMatches, List.infix_nil, htl]
      · simp [fieldMatches, hv, lowerIncludes]

/-- C7: searching with the empty term is the identity; searching with a
non-empty term keeps exactly the issues where the lowercased term is a
contiguous substring of the lowercased `message`, `description` or
`file` field; and the Report pipeline applies the search to the output
of the severity filter. -/
theorem searchText_spec (l : List Issue) (t : String) :
    searchIssues "" l = l ∧
      (searchIssues t l).Sublist l ∧
      (t ≠ "" → ∀ i : Issue, i ∈ searchIssues t l ↔ i ∈ l ∧
        ((∃ v, i.message = some v ∧
            (t.toList.map Char.toLower) <:+: (v.toList.map Char.toLower)) ∨
         (∃ v, i.description = some v ∧
            (t.toList.map Char.toLower) <:+: (v.toList.map Char.toLower)) ∨
         (∃ v, i.file = some v ∧
            (t.toList.map Char.toLower) <:+: (v.toList.map Char.toLower)))) ∧
      (∀ sd filter, reportFilteredIssues sd filter t =
        searchIssues t (filterIssues filter (allIssues sd))) := by
  refine ⟨rfl, ?_, ?_, fun _ _ => rfl⟩
  · by_cases ht : t = ""
    · subst ht
      exact List.Sublist.refl l
    · rw [searchIssues, if_neg ht]
      exact List.filter_sublist l
  · intro ht i
    rw [searchIssues, if_neg ht]
    simp [List.mem_filter, fieldMatches_iff _ _ ht, or_assoc]

/-- C7 witness: the uppercase term `"ROOT"` finds the issue whose
message contains `"root"` in the mixed fixture. -/
theorem searchText_spec_witness :
    critIssue ∈ searchIssues "ROOT" mixedIssues := by
  have h := searchText_spec mixedIssues "ROOT"
  exact (h.2.2.1 (by decide) critIssue).mpr
    ⟨by decide, Or.inl ⟨"Running as root", rfl, by decide⟩⟩

/-- C10 witness: both explain call sites evaluated with the Upload-view
mode set to `"beginner"` on a scan result holding one critical issue. -/
theorem explain_requests_mode_devops_witness :
    (aiExplanationRequest "beginner" critIssue).mode = "devops" ∧
      (explainIssue (jsOrOpt critIssue.message critIssue.description)
        (issueContext critIssue) none).mode = "devops" := by
  have h := explain_requests_mode_devops "beginner" critIssue sampleScanWithCritical
  exact ⟨h.1, h.2 _ (by decide)⟩

/-! Claims about the BestPractices grouping. -/

theorem lookupGroup_cons (p : String × List Issue) (tl : List (String × List Issue))
    (c : String) :
    lookupGroup (p :: tl) c = if p.1 = c then some p.2 else lookupGroup tl c := by
  by_cases h : p.1 = c
  · simp [lookupGroup, List.find?_cons, h]
  · simp [lookupGroup, List.find?_cons, h]

theorem lookup_pushGroup (gs : List (String × List Issue)) (c c' : String) (s : Issue) :
    lookupGroup (pushGroup gs c s) c' =
      if c' = c then some (((lookupGroup gs c).getD []) ++ [s])
      else lookupGroup gs c' := by
  induction gs with
  | nil =>
      by_cases hcc : c' = c
      · subst hcc
        simp [pushGroup, lookupGroup_cons, lookupGroup]
      · have hcc' : ¬(c = c') := fun hh => hcc hh.symm
        simp [pushGroup, lookupGroup_cons, lookupGroup, hcc, hcc']
  | cons p tl ih =>
      by_cases hp : p.1 = c
      · by_cases hcc : c' = c
        · subst hcc
          simp [pushGroup, hp, lookupGroup_cons]
        · have hpc' : ¬(p.1 = c') := by
            rw [hp]
            exact fun hh => hcc hh.symm
          have hcc' : ¬(c = c') := fun hh => hcc hh.symm
          simp [pushGroup, hp, lookupGroup_cons, hpc', hcc, hcc']
      · by_cases hpc' : p.1 = c'
        · have hcc : ¬(c' = c) := fun hh => hp (hpc'.trans hh)
          simp [pushGroup, hp, lookupGroup_cons, hpc', hcc]
        · simp [pushGroup, hp, lookupGroup_cons, hpc', ih]

theorem groupedSuggestions_append_one (l : List Issue) (s : Issue) :
    groupedSuggestions (l ++ [s]) =
      pushGroup (groupedSuggestions l) (effCategory s) s := by
  simp [groupedSuggestions, List.foldl_append]

/-- Full characterization of the JS grouping object: the entry under a
key `c` is exactly the in-order sublist of suggestions whose effective
category (`category || 'general'`) is `c`, and the key is present
exactly when that sublist is non-empty. -/
theorem lookup_groupedSuggestions (l : List Issue) (c : String) :
    lookupGroup (groupedSuggestions l) c =
      (if (l.filter (fun s => effCategory s == c)).isEmpty then none
       else some (l.filter (fun s => effCategory s == c))) := by
  induction l using List.reverseRecOn with
  | nil => rfl
  | append_singleton l s ih =>
      rw [groupedSuggestions_append_one, lookup_pushGroup, List.filter_append]
      by_cases hcc : c = effCategory s
      · have hps : (effCategory s == c) = true := beq_iff_eq.mpr hcc.symm
        rw [if_pos hcc, ← hcc, ih]
        by_cases he : (l.filter (fun x => effCategory x == c)).isEmpty = true
        · have hl : l.filter (fun x => effCategory x == c) = [] :=
            List.isEmpty_iff.mp he
          simp [hl, List.filter, hps]
        · have hne : (l.filter (fun x => effCategory x == c)).isEmpty = false := by
            cases hb : (l.filter (fun x => effCategory x == c)).isEmpty
            · rfl
            · exact absurd hb he
          simp [hne, List.filter, hps]
      · have hps : (effCategory s == c) = false :=
          beq_eq_false_iff_ne.mpr (fun hh => hcc hh.symm)
        rw [if_neg hcc, ih]
        simp [List.filter, hps]

theorem lookupGroup_getD (l : List Issue) (c : String) :
    (lookupGroup (groupedSuggestions l) c).getD [] =
      l.filter (fun s => effCategory s == c) := by
  rw [lookup_groupedSuggestions]
  by_cases he : (l.filter (fun s => effCategory s == c)).isEmpty = true
  · rw [if_pos he, List.isEmpty_iff.mp he]
    rfl
  · rw [if_neg he]
    rfl

theorem displayedCategories_eq (l : List Issue) :
    displayedCategories l =
      categoryOrder.filter (fun c => !(l.filter (fun s => effCategory s == c)).isEmpty) := by
  rw [displayedCategories]
  refine List.filter_congr ?_
  intro c _
  rw [lookup_groupedSuggestions]
  by_cases he : (l.filter (fun s => effCategory s == c)).isEmpty = true
  · rw [if_pos he, he]
    rfl
  · have hne : (l.filter (fun s => effCategory s == c)).isEmpty = false := by
      cases hb : (l.filter (fun s => effCategory s == c)).isEmpty
      · rfl
      · exact absurd hb he
    rw [if_neg he, hne]
    rfl

theorem foldl_add_eq_sum (g : String → Nat) (cs : List String) (n : Nat) :
    cs.foldl (fun sum c => sum + g c) n = n + (cs.map g).sum := by
  induction cs generalizing n with
  | nil => simp
  | cons c tl ih => simp [List.foldl_cons, ih, Nat.add_assoc]

theorem sum_map_filter_of_zero (g : String → Nat) (q : String → Bool)
    (cs : List String) (h : ∀ c ∈ cs, q c = false → g c = 0) :
    ((cs.filter q).map g).sum = (cs.map g).sum := by
  induction cs with
  | nil => rfl
  | cons c tl ih =>
      have htl : ∀ c ∈ tl, q c = false → g c = 0 :=
        fun x hx => h x (List.mem_cons_of_mem c hx)
      by_cases hq : q c = true
      · simp [List.filter_cons, hq, ih htl]
      · have hq' : q c = false := by
          cases hb : q c
          · rfl
          · exact absurd hb hq
        simp [List.filter_cons, hq', ih htl, h c (List.mem_cons_self c tl) hq']

theorem length_filter_or_disjoint (p q : Issue → Bool) (l : List Issue)
    (hdisj : ∀ i, p i = true → q i = false) :
    (l.filter (fun i => p i || q i)).length =
      (l.filter p).length + (l.filter q).length := by
  induction l with
  | nil => rfl
  | cons i tl ih =>
      by_cases hp : p i = true
      · simp [List.filter_cons, hp, hdisj i hp, ih]
        omega
      · have hp' : p i = false := by
          cases hb : p i
          · rfl
          · exact absurd hb hp
        by_cases hq : q i = true
        · simp [List.filter_cons, hp', hq, ih]
          omega
        · have hq' : q i = false := by
            cases hb : q i
            · rfl
            · exact absurd hb hq
          simp [List.filter_cons, hp', hq', ih]

theorem sum_group_lengths_of_nodup (l : List Issue) (cs : List String)
    (h : cs.Nodup) :
    (cs.map (fun c => (l.filter (fun s => effCategory s == c)).length)).sum =
      (l.filter (fun s => cs.contains (effCategory s))).length := by
  induction cs with
  | nil => simp [List.filter]
  | cons c tl ih =>
      obtain ⟨hc, htl⟩ := List.nodup_cons.mp h
      have hdisj : ∀ i : Issue, (effCategory i == c) = true →
          (tl.contains (effCategory i)) = false := by
        intro i hi
        have heq : effCategory i = c := beq_iff_eq.mp hi
        rw [heq]
        cases hb : tl.contains c
        · rfl
        · exact absurd (List.mem_of_elem_eq_true hb) hc
      have hstep := length_filter_or_disjoint (fun s => effCategory s == c)
        (fun s => tl.contains (effCategory s)) l hdisj
      simp only [List.map_cons, List.sum_cons, ih htl, List.contains_cons, hstep]

theorem displayedTotal_eq (l : List Issue) :
    displayedTotal l =
      (l.filter (fun s => categoryOrder.contains (effCategory s))).length := by
  rw [displayedTotal]
  simp only [lookupGroup_getD]
  rw [foldl_add_eq_sum, displayedCategories_eq, Nat.zero_add]
  rw [sum_map_filter_of_zero]
  · exact sum_group_lengths_of_nodup l categoryOrder (by decide)
  · intro c _ hfalse
    have he : (l.filter (fun s => effCategory s == c)).isEmpty = true := by
      cases hb : (l.filter (fun s => effCategory s == c)).isEmpty
      · rw [hb] at hfalse
        cases hfalse
      · rfl
    rw [List.isEmpty_iff.mp he]
    rfl

/-- C2 counterexample: a single suggestion whose category is the
unrecognized string `"weird"` is grouped under its own key and not
under `"general"`; no preferred category has an entry, so the rendered
groups hold zero items while the input list holds one, refuting both
parts of the claim. -/
theorem unknown_category_suggestion_dropped :
    displayedTotal [weirdIssue] = 0 ∧
      ([weirdIssue] : List Issue).length = 1 ∧
      lookupGroup (groupedSuggestions [weirdIssue]) "general" = none ∧
      lookupGroup (groupedSuggestions [weirdIssue]) "weird" = some [weirdIssue] := by
  refine ⟨by decide, rfl, by decide, by decide⟩

/-- C2 (amended): the grouping places each suggestion under its
effective category — `category || 'general'`, so only an absent or
empty category falls back to `"general"`, while an unrecognized
non-empty category becomes its own (never rendered) group — and the
total item count across the displayed groups equals the number of
input suggestions whose effective category lies in the fixed preferred
display list, not in general the input length. -/
theorem groupByCategory_display_spec (l : List Issue) :
    (∀ c, lookupGroup (groupedSuggestions l) c =
        (if (l.filter (fun s => effCategory s == c)).isEmpty then none
         else some (l.filter (fun s => effCategory s == c)))) ∧
      displayedTotal l =
        (l.filter (fun s => categoryOrder.contains (effCategory s))).length ∧
      (∀ s : Issue, s.category = none ∨ s.category = some "" →
        effCategory s = "general") := by
  refine ⟨fun c => lookup_groupedSuggestions l c, displayedTotal_eq l, ?_⟩
  intro s hs
  rcases hs with h | h <;> simp [effCategory, jsOrStr, h]

/-- C2 witness: the grouping evaluated on a concrete suggestion list
holding one category-less suggestion. -/
theorem groupByCategory_display_spec_witness :
    lookupGroup (groupedSuggestions [critIssue]) "general" = some [critIssue] ∧
      effCategory Issue.empty = "general" := by
  have h := groupByCategory_display_spec [critIssue]
  constructor
  · rw [h.1 "general"]
    decide
  · exact h.2.2 Issue.empty (Or.inl rfl)

/-! Claim about the exported report (JSON document round trip). -/

@[simp] theorem decOptStr_encOptStr (o : Option String) :
    decOptStr (encOptStr o) = some o := by
  cases o <;> rfl

@[simp] theorem decOptInt_encOptInt (o : Option Int) :
    decOptInt (encOptInt o) = some o := by
  cases o <;> rfl

@[simp] theorem decOptBool_encOptBool (o : Option Bool) :
    decOptBool (encOptBool o) = some o := by
  cases o <;> rfl

@[simp] theorem decodeIssue_encodeIssue (i : Issue) :
    decodeIssue (encodeIssue i) = some i := by
  simp [decodeIssue, encodeIssue, Json.getField, List.find?]

@[simp] theorem decodeFix_encodeFix (f : Fix) :
    decodeFix (encodeFix f) = some f := by
  simp [decodeFix, encodeFix, Json.getField, List.find?]

@[simp] theorem decodeRiskScore_encodeRiskScore (r : RiskScore) :
    decodeRiskScore (encodeRiskScore r) = some r := by
  simp [decodeRiskScore, encodeRiskScore, Json.getField, List.find?]

@[simp] theorem decodeIssueCounts_encodeIssueCounts (c : IssueCounts) :
    decodeIssueCounts (encodeIssueCounts c) = some c := by
  simp [decodeIssueCounts, encodeIssueCounts, Json.getField, List.find?]

theorem mapM_map_roundtrip {α β : Type} (e : α → β) (d : β → Option α)
    (h : ∀ x, d (e x) = some x) (l : List α) :
    (l.map e).mapM d = some l := by
  induction l with
  | nil => rfl
  | cons x tl ih =>
      rw [List.map_cons, List.mapM_cons, h, ih]
      rfl

@[simp] theorem decodeIssueList_map_encodeIssue (l : List Issue) :
    decodeIssueList (Json.arr (l.map encodeIssue)) = some l :=
  mapM_map_roundtrip encodeIssue decodeIssue decodeIssue_encodeIssue l

@[simp] theorem decodeFixList_map_encodeFix (l : List Fix) :
    decodeFixList (Json.arr (l.map encodeFix)) = some l :=
  mapM_map_roundtrip encodeFix decodeFix decodeFix_encodeFix l

@[simp] theorem decOpt_encOpt_riskScore (o : Option RiskScore) :
    decOpt decodeRiskScore (encOpt encodeRiskScore o) = some o := by
  cases o with
  | none => rfl
  | some r =>
      have h1 : decOpt decodeRiskScore (encOpt encodeRiskScore (some r)) =
          (decodeRiskScore (encodeRiskScore r)).map some := rfl
      rw [h1, decodeRiskScore_encodeRiskScore]
      rfl

@[simp] theorem decOpt_encOpt_issueCounts (o : Option IssueCounts) :
    decOpt decodeIssueCounts (encOpt encodeIssueCounts o) = some o := by
  cases o with
  | none => rfl
  | some c =>
      have h1 : decOpt decodeIssueCounts (encOpt encodeIssueCounts (some c)) =
          (decodeIssueCounts (encodeIssueCounts c)).map some := rfl
      rw [h1, decodeIssueCounts_encodeIssueCounts]
      rfl

theorem decodeScanResult_encodeScanResult (sd : ScanResult) :
    decodeScanResult (encodeScanResult sd) = some sd := by
  simp [decodeScanResult, encodeScanResult, Json.getField, List.find?]

/-- C8: the exported report document carries the current time's
ISO-8601 string under `timestamp` and the active scan result under
`scan_data`; parsing the `scan_data` value back yields a scan result
deep-equal to the exported one, and the download filename is
`zeroguard-report-<date part of the ISO timestamp>.json`. -/
theorem exportReport_roundtrip_spec (sd : ScanResult) (nowIso : String) :
    (exportReport sd nowIso).1.getField "timestamp" = some (Json.str nowIso) ∧
      ((exportReport sd nowIso).1.getField "scan_data").bind decodeScanResult =
        some sd ∧
      (exportReport sd nowIso).2 =
        "zeroguard-report-" ++ isoDatePart nowIso ++ ".json" := by
  refine ⟨rfl, ?_, rfl⟩
  have hfield : (exportReport sd nowIso).1.getField "scan_data" =
      some (encodeScanResult sd) := rfl
  rw [hfield]
  exact decodeScanResult_encodeScanResult sd

end ZeroGuard
